import Mathlib

set_option maxHeartbeats 1000000
set_option linter.unusedVariables false

namespace Matterclient

/-- Does the needle occur at the head of the haystack? Inner step of the model of Go strings.Contains. -/
def headMatch : List Char → List Char → Bool
  | [], _ => true
  | _ :: _, [] => false
  | a :: as, b :: bs => a == b && headMatch as bs

/-- Model of Go strings.Contains: does the needle occur anywhere in the haystack? -/
def containsStr (needle : List Char) : List Char → Bool
  | [] => needle.isEmpty
  | c :: t => headMatch needle (c :: t) || containsStr needle t

/-- Model of Go strings.Split with the two-underscore separator used for direct-message channel names: splits around each leftmost non-overlapping occurrence of the separator. -/
def splitUU (acc : List Char) : List Char → List (List Char)
  | '_' :: '_' :: rest => acc.reverse :: splitUU [] rest
  | c :: rest => splitUU (c :: acc) rest
  | [] => [acc.reverse]

/-- Model of Go strings.Replace with count one and the hash marker: remove the first occurrence of the channel marker anywhere in the string, as JoinChannel does. -/
def removeFirstHash : List Char → List Char
  | [] => []
  | c :: rest => if c = '#' then rest else c :: removeFirstHash rest

def stripHash (s : String) : String :=
  String.mk (removeFirstHash s.data)

/-- Login lines 71-72: an AppError counts as transient when its detailed text mentions a refused connection or an invalid character in the response body. -/
def isTransient (detailedError : String) : Bool :=
  containsStr ("connection refused").data detailedError.data ||
    containsStr ("invalid character").data detailedError.data

structure User where
  id : String
  username : String
deriving DecidableEq

structure Channel where
  id : String
  name : String
  header : String
deriving DecidableEq

structure Post where
  userId : String
  channelId : String
  message : String
deriving DecidableEq

/-- The fields of MMClient that the verified operations read and write: the session identity, the user cache keyed by identifier, and the two channel caches. -/
structure MMState where
  user : User
  users : List (String × User)
  channels : List Channel
  moreChannels : List Channel
deriving DecidableEq

/-- The remote backend, modelled as response data for each consumed REST operation. The paired Option String on the fetches is the error component of the Go multi-value return; the payload component is what the code dereferences. -/
structure Backend where
  profilesResp : List (String × User) × Option String
  channelsResp : List Channel × Option String
  moreChannelsResp : List Channel × Option String
  joinResp : String → Option String
  postsSinceResp : String → Int → Except String (List Post)
  searchPostsResp : String → Except String (List Post)
  getPostsResp : String → Nat → Except String (List Post)
  updateHeaderResp : String → String → Except String Unit
  updateLastViewedResp : String → Except String Unit

/-- Go map indexing on the user cache built by GetProfiles, keyed by user identifier. -/
def lookupUser : List (String × User) → String → Option User
  | [], _ => none
  | (k, u) :: rest, key => if k = key then some u else lookupUser rest key

/-- The range-loop scan over a channel slice comparing identifiers, as in GetChannelName and GetChannelHeader. -/
def findById : List Channel → String → Option Channel
  | [], _ => none
  | c :: rest, cid => if c.id = cid then some c else findById rest cid

/-- The range-loop scan over a channel slice comparing names, as in GetChannelId. -/
def findByName : List Channel → String → Option Channel
  | [], _ => none
  | c :: rest, nm => if c.name = nm then some c else findByName rest nm

/-- UpdateUsers, lines 170-174: fetch the profile list, discard the fetch error with the blank identifier, replace the user cache wholesale, return nil. -/
def UpdateUsers (st : MMState) (be : Backend) : MMState × Option String :=
  ({ st with users := be.profilesResp.1 }, none)

/-- UpdateChannels, lines 176-182: fetch joined and not-yet-joined channels in two calls, discard both fetch errors, replace both caches wholesale, return nil. -/
def UpdateChannels (st : MMState) (be : Backend) : MMState × Option String :=
  ({ st with channels := be.channelsResp.1, moreChannels := be.moreChannelsResp.1 }, none)

/-- GetChannelName, lines 184-198: scan the concatenation of both caches; on a miss refresh the channel caches once and rescan; still missing yields the empty string. The Nat component counts UpdateChannels calls. -/
def GetChannelName (st : MMState) (be : Backend) (cid : String) : String × MMState × Nat :=
  match findById (st.channels ++ st.moreChannels) cid with
  | some c => (c.name, st, 0)
  | none =>
    let st1 := (UpdateChannels st be).1
    match findById (st1.channels ++ st1.moreChannels) cid with
    | some c => (c.name, st1, 1)
    | none => ("", st1, 1)

/-- GetChannelId, lines 200-207: scan the concatenation of both caches by name; no refresh is ever made. The Nat component counts UpdateChannels calls. -/
def GetChannelId (st : MMState) (be : Backend) (nm : String) : String × MMState × Nat :=
  match findByName (st.channels ++ st.moreChannels) nm with
  | some c => (c.id, st, 0)
  | none => ("", st, 0)

/-- GetChannelHeader, lines 209-216: scan the concatenation of both caches by identifier; no refresh is ever made. The Nat component counts UpdateChannels calls. -/
def GetChannelHeader (st : MMState) (be : Backend) (cid : String) : String × MMState × Nat :=
  match findById (st.channels ++ st.moreChannels) cid with
  | some c => (c.header, st, 0)
  | none => ("", st, 0)

/-- parseActionPost lines 150-152: when the acting user is absent from the user cache, refresh the user cache first. -/
def userStage (st : MMState) (be : Backend) (data : Post) : MMState :=
  if (lookupUser st.users data.userId).isNone then (UpdateUsers st be).1 else st

/-- parseActionPost line 154: resolve the channel name after the user stage. -/
def chanStage (st : MMState) (be : Backend) (data : Post) : String × MMState × Nat :=
  GetChannelName (userStage st be data) be data.channelId

/-- parseActionPost lines 156-164: direct-message detection; a none result models the nil-map dereference when the selected participant is absent from the user cache. -/
def dmRewrite (st : MMState) (channel : String) : Option String :=
  if containsStr ("__").data channel.data then
    let rcvusers := splitUU [] channel.data
    let r0 := String.mk (rcvusers.getD 0 [])
    let r1 := String.mk (rcvusers.getD 1 [])
    if r0 ≠ st.user.id then
      (lookupUser st.users r0).map User.username
    else
      (lookupUser st.users r1).map User.username
  else some channel

/-- The normalized message fields produced by parseActionPost, instrumented with the number of user-cache and channel-cache refreshes the call performed. -/
structure ParsedMsg where
  username : String
  channel : String
  text : String
  userRefreshes : Nat
  chanRefreshes : Nat
deriving DecidableEq

/-- parseActionPost, lines 146-168: resolve the acting user (refreshing the user cache on a miss), resolve the channel name, rewrite direct-message names to the counterpart username, and fill text and post. A none result models the nil-map dereference when a required user is absent even after refresh. -/
def parseActionPost (st : MMState) (be : Backend) (data : Post) : Option (ParsedMsg × MMState) :=
  let ur : Nat := if (lookupUser st.users data.userId).isNone then 1 else 0
  match lookupUser (userStage st be data).users data.userId with
  | none => none
  | some u =>
    let c := chanStage st be data
    match dmRewrite c.2.1 c.1 with
    | none => none
    | some ch =>
      some ({ username := u.username, channel := ch, text := data.message,
              userRefreshes := ur, chanRefreshes := c.2.2 }, c.2.1)

/-- PostMessage, lines 218-221: build the post with the resolved channel identifier and submit it unconditionally; the returned value is the post handed to CreatePost. -/
def PostMessage (st : MMState) (be : Backend) (channel text : String) : Post :=
  { userId := "", channelId := (GetChannelId st be channel).1, message := text }

/-- JoinChannel, lines 223-233: remove the first hash marker, resolve the name; an empty identifier yields the generic failure without a backend call, a backend error yields the generic failure, otherwise success. The Bool records whether the backend join call was made. -/
def JoinChannel (st : MMState) (be : Backend) (channel : String) : Except String Unit × Bool :=
  if (GetChannelId st be (stripHash channel)).1 = "" then
    (Except.error "failed to join", false)
  else
    match be.joinResp (GetChannelId st be (stripHash channel)).1 with
    | some _ => (Except.error "failed to join", true)
    | none => (Except.ok (), true)

/-- GetPostsSince, lines 235-241: on backend error return nil, otherwise the full result. -/
def GetPostsSince (be : Backend) (channelId : String) (time : Int) : Option (List Post) :=
  match be.postsSinceResp channelId time with
  | Except.error _ => none
  | Except.ok r => some r

/-- SearchPosts, lines 243-249: on backend error return nil, otherwise the full result. -/
def SearchPosts (be : Backend) (query : String) : Option (List Post) :=
  match be.searchPostsResp query with
  | Except.error _ => none
  | Except.ok r => some r

/-- GetPosts, lines 251-257: on backend error return nil, otherwise the full result. -/
def GetPosts (be : Backend) (channelId : String) (limit : Nat) : Option (List Post) :=
  match be.getPostsResp channelId limit with
  | Except.error _ => none
  | Except.ok r => some r

/-- UpdateChannelHeader, lines 259-268: submit the header update; a backend error is logged and swallowed. The List String is the log; the Unit result carries no error to the caller. -/
def UpdateChannelHeader (be : Backend) (channelId header : String) : Unit × List String :=
  match be.updateHeaderResp channelId header with
  | Except.error e => ((), [e])
  | Except.ok _ => ((), [])

/-- UpdateLastViewed, lines 270-276: submit the last-viewed update; a backend error is logged and swallowed. -/
def UpdateLastViewed (be : Backend) (channelId : String) : Unit × List String :=
  match be.updateLastViewedResp channelId with
  | Except.error e => ((), [e])
  | Except.ok _ => ((), [])

/-- One response of LoginByEmail: success, or an AppError with its DetailedError and Message fields. -/
inductive LoginResp where
  | ok
  | appErr (detailedError : String) (message : String)
deriving DecidableEq

def isTransientErr : LoginResp → Bool
  | LoginResp.ok => false
  | LoginResp.appErr d _ => isTransient d

/-- The retry loop of Login, lines 66-80, driven by a sequence of backend responses. Returns the outcome together with the number of backoff sleeps performed; a none outcome means the loop was still retrying when the modelled response sequence ran out. -/
def loginLoop : List LoginResp → Option (Except String Unit) × Nat
  | [] => (none, 0)
  | LoginResp.ok :: _ => (some (Except.ok ()), 0)
  | LoginResp.appErr d msg :: rest =>
    if isTransient d then
      let r := loginLoop rest
      (r.1, r.2 + 1)
    else
      (some (Except.error msg), 0)

/-- One blocking stream read: a frame, or a read error. -/
inductive ReadResult where
  | ok (frame : String)
  | err
deriving DecidableEq

/-- WsReceiver, lines 117-131, driven by a sequence of read results. The second argument is the rmsg buffer, which is declared before the loop and persists across iterations; a failed ReadJSON leaves it unchanged, triggers one re-login, and execution falls through to the emit. Returns the re-login count and the raw frames of the messages pushed to MessageChan, in order. -/
def wsReceiver : List ReadResult → String → Nat × List String
  | [], _ => (0, [])
  | ReadResult.ok f :: rest, _ =>
    let r := wsReceiver rest f
    (r.1, f :: r.2)
  | ReadResult.err :: rest, rmsg =>
    let r := wsReceiver rest rmsg
    (r.1 + 1, rmsg :: r.2)

/-- Modelled from the claim's words for C7: strip the channel marker only when it is the leading character of the name. -/
def stripLeadingHash (s : String) : String :=
  match s.data with
  | '#' :: rest => String.mk rest
  | _ => s

theorem stringMk_data (s : String) : String.mk s.data = s := rfl

/-- A backend whose every operation succeeds with empty payloads; used as the concrete environment of several witnesses. -/
def beDefault : Backend :=
  { profilesResp := ([], none), channelsResp := ([], none), moreChannelsResp := ([], none),
    joinResp := fun _ => none,
    postsSinceResp := fun _ _ => Except.ok [],
    searchPostsResp := fun _ => Except.ok [],
    getPostsResp := fun _ _ => Except.ok [],
    updateHeaderResp := fun _ _ => Except.ok (),
    updateLastViewedResp := fun _ => Except.ok () }

theorem loginLoop_all_transient (l : List LoginResp)
    (h : ∀ x ∈ l, isTransientErr x = true) : loginLoop l = (none, l.length) := by
  induction l with
  | nil => rfl
  | cons x t ih =>
    cases x with
    | ok => simpa [isTransientErr] using h LoginResp.ok (List.mem_cons_self _ _)
    | appErr d m =>
      have hd : isTransient d = true := h (LoginResp.appErr d m) (List.mem_cons_self _ _)
      have ht := ih (fun y hy => h y (List.mem_cons_of_mem _ hy))
      simp [loginLoop, hd, ht]

theorem loginLoop_first_fatal (d msg : String) (rest : List LoginResp)
    (hd : isTransient d = false) :
    ∀ pre : List LoginResp, (∀ x ∈ pre, isTransientErr x = true) →
      loginLoop (pre ++ LoginResp.appErr d msg :: rest) = (some (Except.error msg), pre.length) := by
  intro pre
  induction pre with
  | nil => intro _; simp [loginLoop, hd]
  | cons x t ih =>
    intro hpre
    cases x with
    | ok => simpa [isTransientErr] using hpre LoginResp.ok (List.mem_cons_self _ _)
    | appErr d2 m2 =>
      have hd2 : isTransient d2 = true :=
        hpre (LoginResp.appErr d2 m2) (List.mem_cons_self _ _)
      have ht := ih (fun y hy => hpre y (List.mem_cons_of_mem _ hy))
      simp [loginLoop, hd2, ht]

/-- Claim C1: after a failed stream read, WsReceiver performs exactly one re-login, but lacking a continue statement it still pushes a message built from the stale rmsg buffer onto the output channel for the failed iteration; in general every iteration, failed or not, emits exactly one message. -/
theorem wsReceiver_emits_after_failed_read :
    wsReceiver [ReadResult.err] "stale frame" = (1, ["stale frame"])
    ∧ ∀ (l : List ReadResult) (rmsg : String), ((wsReceiver l rmsg).2).length = l.length := by
  refine ⟨rfl, ?_⟩
  intro l
  induction l with
  | nil => intro rmsg; rfl
  | cons x t ih =>
    intro rmsg
    cases x with
    | ok f => simp [wsReceiver, ih]
    | err => simp [wsReceiver, ih]

/-- Claim C2: a login attempt answered by a non-transient application error ends the retry loop at once with an error carrying the backend message and no backoff sleep for that attempt (the sleep count equals the number of preceding transient attempts); a response sequence made solely of transient errors is consumed entirely, sleeping once per attempt, and never surfaces any of those errors. -/
theorem loginLoop_error_classification
    (pre : List LoginResp) (d msg : String) (rest : List LoginResp)
    (hpre : ∀ x ∈ pre, isTransientErr x = true)
    (hd : isTransient d = false) :
    loginLoop (pre ++ LoginResp.appErr d msg :: rest) = (some (Except.error msg), pre.length)
    ∧ ∀ l : List LoginResp, (∀ x ∈ l, isTransientErr x = true) →
        loginLoop l = (none, l.length) :=
  ⟨loginLoop_first_fatal d msg rest hd pre hpre,
   fun l hl => loginLoop_all_transient l hl⟩

theorem loginLoop_error_classification_witness :
    loginLoop [LoginResp.appErr "dial tcp 10.0.0.1:80: connection refused" "transient",
               LoginResp.appErr "login failed because of invalid password" "Login failed"]
      = (some (Except.error "Login failed"), 1) :=
  (loginLoop_error_classification
    [LoginResp.appErr "dial tcp 10.0.0.1:80: connection refused" "transient"]
    "login failed because of invalid password" "Login failed" []
    (by decide) (by decide)).1

/-- Claim C10: UpdateUsers and UpdateChannels return the constant nil error on every backend outcome; the error components of the fetches are discarded (the result is unchanged under any error component) and the caches are replaced wholesale from the fetched payloads. -/
theorem refresh_returns_nil (st : MMState) (be : Backend) :
    (UpdateUsers st be).2 = none
    ∧ (UpdateChannels st be).2 = none
    ∧ (UpdateUsers st be).1.users = be.profilesResp.1
    ∧ (UpdateChannels st be).1.channels = be.channelsResp.1
    ∧ (UpdateChannels st be).1.moreChannels = be.moreChannelsResp.1
    ∧ ∀ e1 e2 e3 : Option String,
        UpdateUsers st { be with profilesResp := (be.profilesResp.1, e1) } = UpdateUsers st be
        ∧ UpdateChannels st { be with channelsResp := (be.channelsResp.1, e2),
                                       moreChannelsResp := (be.moreChannelsResp.1, e3) }
            = UpdateChannels st be :=
  ⟨rfl, rfl, rfl, rfl, rfl, fun _ _ _ => ⟨rfl, rfl⟩⟩

/-- Claim C8: the history and search calls return an absent result exactly on a backend error and the full payload on success, while the header and last-viewed updates log the backend error and return normally, propagating nothing. -/
theorem passthrough_error_handling (be : Backend) (channelId header query : String)
    (t : Int) (limit : Nat) :
    (∀ e, be.postsSinceResp channelId t = Except.error e → GetPostsSince be channelId t = none)
    ∧ (∀ r, be.postsSinceResp channelId t = Except.ok r → GetPostsSince be channelId t = some r)
    ∧ (∀ e, be.searchPostsResp query = Except.error e → SearchPosts be query = none)
    ∧ (∀ r, be.searchPostsResp query = Except.ok r → SearchPosts be query = some r)
    ∧ (∀ e, be.getPostsResp channelId limit = Except.error e → GetPosts be channelId limit = none)
    ∧ (∀ r, be.getPostsResp channelId limit = Except.ok r → GetPosts be channelId limit = some r)
    ∧ (∀ e, be.updateHeaderResp channelId header = Except.error e →
        UpdateChannelHeader be channelId header = ((), [e]))
    ∧ (∀ e, be.updateLastViewedResp channelId = Except.error e →
        UpdateLastViewed be channelId = ((), [e])) := by
  refine ⟨?_, ?_, ?_, ?_, ?_, ?_, ?_, ?_⟩ <;> intro x hx
  · simp [GetPostsSince, hx]
  · simp [GetPostsSince, hx]
  · simp [SearchPosts, hx]
  · simp [SearchPosts, hx]
  · simp [GetPosts, hx]
  · simp [GetPosts, hx]
  · simp [UpdateChannelHeader, hx]
  · simp [UpdateLastViewed, hx]

/-- A backend whose every operation fails; used by the C8 witness. -/
def beC8 : Backend :=
  { profilesResp := ([], some "fetchfail"), channelsResp := ([], some "fetchfail"),
    moreChannelsResp := ([], some "fetchfail"),
    joinResp := fun _ => some "joinfail",
    postsSinceResp := fun _ _ => Except.error "boom",
    searchPostsResp := fun _ => Except.error "boom",
    getPostsResp := fun _ _ => Except.error "boom",
    updateHeaderResp := fun _ _ => Except.error "hdrfail",
    updateLastViewedResp := fun _ => Except.error "viewfail" }

theorem passthrough_error_handling_witness :
    GetPostsSince beC8 "chan" 0 = none
    ∧ UpdateChannelHeader beC8 "chan" "newhdr" = ((), ["hdrfail"])
    ∧ UpdateLastViewed beC8 "chan" = ((), ["viewfail"]) :=
  ⟨(passthrough_error_handling beC8 "chan" "newhdr" "q" 0 0).1 "boom" rfl,
   (passthrough_error_handling beC8 "chan" "newhdr" "q" 0 0).2.2.2.2.2.2.1 "hdrfail" rfl,
   (passthrough_error_handling beC8 "chan" "newhdr" "q" 0 0).2.2.2.2.2.2.2 "viewfail" rfl⟩

/-- Claim C9: PostMessage submits the post unconditionally, carrying the resolved channel identifier and the given text; when the name resolves to no cached channel the submitted post carries the empty channel identifier. -/
theorem PostMessage_permissive (st : MMState) (be : Backend) (channel text : String) :
    PostMessage st be channel text
      = { userId := "", channelId := (GetChannelId st be channel).1, message := text }
    ∧ (findByName (st.channels ++ st.moreChannels) channel = none →
        (PostMessage st be channel text).channelId = "") := by
  refine ⟨rfl, ?_⟩
  intro h
  simp [PostMessage, GetChannelId, h]

/-- A session state holding one cached channel; used by the C9 witness. -/
def stC9 : MMState :=
  { user := { id := "self", username := "selfname" },
    users := [],
    channels := [{ id := "id1", name := "general", header := "hello" }],
    moreChannels := [] }

theorem PostMessage_permissive_witness :
    findByName (stC9.channels ++ stC9.moreChannels) "ghost" = none
    ∧ (PostMessage stC9 beDefault "ghost" "hi there").channelId = "" :=
  ⟨by decide, (PostMessage_permissive stC9 beDefault "ghost" "hi there").2 (by decide)⟩

/-- Claim C4: GetChannelName scans the concatenation of both channel caches; a hit returns that channel's name with no refresh; a miss triggers exactly one full channel-cache refresh followed by a rescan of the refreshed caches; an identifier still absent after the refresh yields the empty string. -/
theorem GetChannelName_refresh_policy (st : MMState) (be : Backend) (cid : String) :
    (∀ c, findById (st.channels ++ st.moreChannels) cid = some c →
       GetChannelName st be cid = (c.name, st, 0))
    ∧ (findById (st.channels ++ st.moreChannels) cid = none →
        (GetChannelName st be cid).2.1 = (UpdateChannels st be).1
        ∧ (GetChannelName st be cid).2.2 = 1
        ∧ (∀ c, findById (be.channelsResp.1 ++ be.moreChannelsResp.1) cid = some c →
            (GetChannelName st be cid).1 = c.name)
        ∧ (findById (be.channelsResp.1 ++ be.moreChannelsResp.1) cid = none →
            (GetChannelName st be cid).1 = "")) := by
  constructor
  · intro c hc
    simp [GetChannelName, hc]
  · intro hmiss
    cases h2 : findById (be.channelsResp.1 ++ be.moreChannelsResp.1) cid with
    | none =>
      refine ⟨?_, ?_, ?_, ?_⟩
      · simp [GetChannelName, UpdateChannels, hmiss, h2]
      · simp [GetChannelName, UpdateChannels, hmiss, h2]
      · intro c hc
        exact Option.noConfusion hc
      · intro _
        simp [GetChannelName, UpdateChannels, hmiss, h2]
    | some c =>
      refine ⟨?_, ?_, ?_, ?_⟩
      · simp [GetChannelName, UpdateChannels, hmiss, h2]
      · simp [GetChannelName, UpdateChannels, hmiss, h2]
      · intro c2 hc2
        cases hc2
        simp [GetChannelName, UpdateChannels, hmiss, h2]
      · intro habs
        exact Option.noConfusion habs

/-- A session state with empty channel caches; used by the C4 witness. -/
def stC4 : MMState :=
  { user := { id := "self", username := "selfname" },
    users := [], channels := [], moreChannels := [] }

/-- A backend offering one channel; used by the C4 witness. -/
def beC4 : Backend :=
  { beDefault with channelsResp := ([{ id := "cidA", name := "alpha", header := "" }], none) }

theorem GetChannelName_refresh_policy_witness :
    findById (stC4.channels ++ stC4.moreChannels) "cidZ" = none
    ∧ (GetChannelName stC4 beC4 "cidZ").2.2 = 1
    ∧ (GetChannelName stC4 beC4 "cidZ").1 = ""
    ∧ (GetChannelName stC4 beC4 "cidA").1 = "alpha" :=
  ⟨by decide,
   ((GetChannelName_refresh_policy stC4 beC4 "cidZ").2 (by decide)).2.1,
   ((GetChannelName_refresh_policy stC4 beC4 "cidZ").2 (by decide)).2.2.2 (by decide),
   ((GetChannelName_refresh_policy stC4 beC4 "cidA").2 (by decide)).2.2.1
     { id := "cidA", name := "alpha", header := "" } (by decide)⟩

/-- A session state with empty channel caches; used by the C5 counterexample and witness. -/
def stC5 : MMState :=
  { user := { id := "self", username := "selfname" },
    users := [], channels := [], moreChannels := [] }

/-- A backend offering the channel c9 that is missing from the caches; used by the C5 counterexample and witness. -/
def beC5 : Backend :=
  { beDefault with channelsResp := ([{ id := "c9", name := "nine", header := "hdr9" }], none) }

/-- Claim C5 counterexample: the identifier c9 is absent from the concatenation of both caches and available from the backend, yet GetChannelHeader performs no refresh at all (state unchanged, refresh count zero, not one) and returns the empty header, contradicting the claimed refresh-and-retry for every lookup keyed by identifier. -/
theorem GetChannelHeader_no_refresh_counterexample :
    findById (stC5.channels ++ stC5.moreChannels) "c9" = none
    ∧ findById (beC5.channelsResp.1 ++ beC5.moreChannelsResp.1) "c9"
        = some { id := "c9", name := "nine", header := "hdr9" }
    ∧ GetChannelHeader stC5 beC5 "c9" = ("", stC5, 0)
    ∧ (GetChannelHeader stC5 beC5 "c9").2.2 ≠ 1 := by
  refine ⟨by decide, by decide, by decide, by decide⟩

/-- Claim C5 amended: among the channel lookups, only the name lookup keyed by identifier (GetChannelName) attempts the single refresh-and-retry on a miss; the header lookup keyed by identifier (GetChannelHeader) and the identifier lookup keyed by name (GetChannelId) never trigger a cache refresh and leave the state unchanged. -/
theorem channel_lookup_refresh_policy (st : MMState) (be : Backend) (cid nm : String) :
    (findById (st.channels ++ st.moreChannels) cid = none →
       (GetChannelName st be cid).2.2 = 1
       ∧ (GetChannelName st be cid).2.1 = (UpdateChannels st be).1)
    ∧ (∀ c, findById (st.channels ++ st.moreChannels) cid = some c →
        (GetChannelName st be cid).2.2 = 0)
    ∧ (GetChannelHeader st be cid).2.2 = 0
    ∧ (GetChannelHeader st be cid).2.1 = st
    ∧ (GetChannelId st be nm).2.2 = 0
    ∧ (GetChannelId st be nm).2.1 = st := by
  refine ⟨?_, ?_, ?_, ?_, ?_, ?_⟩
  · intro hmiss
    cases h2 : findById (be.channelsResp.1 ++ be.moreChannelsResp.1) cid with
    | none => constructor <;> simp [GetChannelName, UpdateChannels, hmiss, h2]
    | some c => constructor <;> simp [GetChannelName, UpdateChannels, hmiss, h2]
  · intro c hc
    simp [GetChannelName, hc]
  · cases h : findById (st.channels ++ st.moreChannels) cid <;> simp [GetChannelHeader, h]
  · cases h : findById (st.channels ++ st.moreChannels) cid <;> simp [GetChannelHeader, h]
  · cases h : findByName (st.channels ++ st.moreChannels) nm <;> simp [GetChannelId, h]
  · cases h : findByName (st.channels ++ st.moreChannels) nm <;> simp [GetChannelId, h]

theorem channel_lookup_refresh_policy_witness :
    findById (stC5.channels ++ stC5.moreChannels) "c9" = none
    ∧ (GetChannelName stC5 beC5 "c9").2.2 = 1
    ∧ (GetChannelHeader stC5 beC5 "c9").2.2 = 0
    ∧ (GetChannelId stC5 beC5 "nine").2.2 = 0 :=
  ⟨by decide,
   ((channel_lookup_refresh_policy stC5 beC5 "c9" "nine").1 (by decide)).1,
   (channel_lookup_refresh_policy stC5 beC5 "c9" "nine").2.2.1,
   (channel_lookup_refresh_policy stC5 beC5 "c9" "nine").2.2.2.2.1⟩

theorem dmRewrite_split (st2 : MMState) (nm u1 u2 : String)
    (hcontains : containsStr ("__").data nm.data = true)
    (hsplit : splitUU [] nm.data = [u1.data, u2.data]) :
    dmRewrite st2 nm =
      if u1 ≠ st2.user.id
      then (lookupUser st2.users u1).map User.username
      else (lookupUser st2.users u2).map User.username := by
  unfold dmRewrite
  rw [hcontains, hsplit]
  simp [stringMk_data]

/-- Claim C3: when the resolved channel name splits on the two-underscore separator into identifiers U1 and U2, the normalized message's channel display name is the counterpart participant's username: U2's username when the session user is U1, and U1's username when the session user is U2. -/
theorem parseActionPost_dm_counterpart
    (st : MMState) (be : Backend) (data : Post) (msg : ParsedMsg) (stf : MMState)
    (u1 u2 : String) (other : User)
    (hp : parseActionPost st be data = some (msg, stf))
    (hcontains : containsStr ("__").data ((chanStage st be data).1).data = true)
    (hsplit : splitUU [] ((chanStage st be data).1).data = [u1.data, u2.data]) :
    ((chanStage st be data).2.1.user.id = u1 →
       lookupUser (chanStage st be data).2.1.users u2 = some other →
       msg.channel = other.username)
    ∧ ((chanStage st be data).2.1.user.id = u2 →
       lookupUser (chanStage st be data).2.1.users u1 = some other →
       msg.channel = other.username) := by
  simp only [parseActionPost] at hp
  split at hp
  · exact Option.noConfusion hp
  · rename_i u0 hu0
    split at hp
    · exact Option.noConfusion hp
    · rename_i ch hdm
      rw [Option.some.injEq, Prod.mk.injEq] at hp
      obtain ⟨hmsg, hstf⟩ := hp
      subst hmsg
      rw [dmRewrite_split _ _ u1 u2 hcontains hsplit] at hdm
      constructor
      · intro hA hlk
        have hcond : ¬ (u1 ≠ (chanStage st be data).2.1.user.id) := fun hne => hne hA.symm
        rw [if_neg hcond, hlk] at hdm
        simp only [Option.map_some'] at hdm
        exact (Option.some.inj hdm).symm
      · intro hB hlk
        by_cases h12 : u1 = (chanStage st be data).2.1.user.id
        · have hcond : ¬ (u1 ≠ (chanStage st be data).2.1.user.id) := fun hne => hne h12
          have hu12 : u1 = u2 := h12.trans hB
          rw [if_neg hcond, ← hu12, hlk] at hdm
          simp only [Option.map_some'] at hdm
          exact (Option.some.inj hdm).symm
        · rw [if_pos h12, hlk] at hdm
          simp only [Option.map_some'] at hdm
          exact (Option.some.inj hdm).symm

/-- A session state whose current user u1 shares a direct-message channel with u2; used by the C3 witness. -/
def stC3 : MMState :=
  { user := { id := "u1", username := "alice" },
    users := [("u1", { id := "u1", username := "alice" }),
              ("u2", { id := "u2", username := "bob" })],
    channels := [{ id := "cid1", name := "u1__u2", header := "" }],
    moreChannels := [] }

def postC3 : Post := { userId := "u1", channelId := "cid1", message := "hello" }

def msgC3 : ParsedMsg :=
  { username := "alice", channel := "bob", text := "hello",
    userRefreshes := 0, chanRefreshes := 0 }

theorem parseActionPost_dm_counterpart_witness :
    parseActionPost stC3 beDefault postC3 = some (msgC3, stC3)
    ∧ msgC3.channel = "bob" :=
  ⟨by decide,
   (parseActionPost_dm_counterpart stC3 beDefault postC3 msgC3 stC3 "u1" "u2"
      { id := "u2", username := "bob" } (by decide) (by decide) (by decide)).1
     (by decide) (by decide)⟩

/-- Claim C6: a post whose acting user identifier is absent from the user cache triggers exactly one full user-cache refresh and resolves the username from the refreshed cache when the identifier is present there; a cached identifier triggers no refresh and resolves from the existing cache. -/
theorem parseActionPost_user_refresh
    (st : MMState) (be : Backend) (data : Post) (msg : ParsedMsg) (stf : MMState)
    (hp : parseActionPost st be data = some (msg, stf)) :
    (lookupUser st.users data.userId = none →
       msg.userRefreshes = 1
       ∧ (userStage st be data).users = be.profilesResp.1
       ∧ ∀ u, lookupUser be.profilesResp.1 data.userId = some u → msg.username = u.username)
    ∧ (∀ u, lookupUser st.users data.userId = some u →
        msg.userRefreshes = 0 ∧ msg.username = u.username) := by
  simp only [parseActionPost] at hp
  split at hp
  · exact Option.noConfusion hp
  · rename_i u0 hu0
    split at hp
    · exact Option.noConfusion hp
    · rename_i ch hdm
      rw [Option.some.injEq, Prod.mk.injEq] at hp
      obtain ⟨hmsg, hstf⟩ := hp
      subst hmsg
      constructor
      · intro hmiss
        have husers : (userStage st be data).users = be.profilesResp.1 := by
          simp [userStage, UpdateUsers, hmiss]
        refine ⟨by simp [hmiss], husers, ?_⟩
        intro u hu
        rw [husers] at hu0
        rw [hu0] at hu
        injection hu with h
        subst h
        rfl
      · intro u hu
        have hus : userStage st be data = st := by simp [userStage, hu]
        rw [hus] at hu0
        rw [hu0] at hu
        injection hu with h
        subst h
        exact ⟨by simp [hu0], rfl⟩

/-- A session state with an empty user cache; used by the C6 witness. -/
def stC6 : MMState :=
  { user := { id := "self", username := "selfname" },
    users := [],
    channels := [{ id := "cidT", name := "town", header := "" }],
    moreChannels := [] }

/-- A backend whose profile list carries the poster missing from the cache; used by the C6 witness. -/
def beC6 : Backend :=
  { beDefault with profilesResp := ([("carol", { id := "carol", username := "carol" })], none) }

def postC6 : Post := { userId := "carol", channelId := "cidT", message := "hi" }

def msgC6 : ParsedMsg :=
  { username := "carol", channel := "town", text := "hi",
    userRefreshes := 1, chanRefreshes := 0 }

def stfC6 : MMState := { stC6 with users := beC6.profilesResp.1 }

theorem parseActionPost_user_refresh_witness :
    lookupUser stC6.users postC6.userId = none
    ∧ parseActionPost stC6 beC6 postC6 = some (msgC6, stfC6)
    ∧ msgC6.userRefreshes = 1 :=
  ⟨by decide, by decide,
   ((parseActionPost_user_refresh stC6 beC6 postC6 msgC6 stfC6 (by decide)).1 (by decide)).1⟩

/-- A session state caching a channel whose name carries an interior hash marker, plus an ordinary channel; used by the C7 counterexample and witness. -/
def stC7 : MMState :=
  { user := { id := "self", username := "selfname" },
    users := [],
    channels := [{ id := "idX", name := "a#b", header := "" },
                 { id := "idG", name := "general", header := "" }],
    moreChannels := [] }

/-- Claim C7 counterexample: for the input name with an interior hash, the claimed leading-marker strip leaves the name intact and it resolves to a cached identifier the backend would successfully join, yet JoinChannel removes the first hash anywhere, fails to resolve the mangled name, and returns the generic failure without contacting the backend. -/
theorem JoinChannel_strip_counterexample :
    stripLeadingHash "a#b" = "a#b"
    ∧ (GetChannelId stC7 beDefault (stripLeadingHash "a#b")).1 = "idX"
    ∧ beDefault.joinResp "idX" = none
    ∧ stripHash "a#b" = "ab"
    ∧ JoinChannel stC7 beDefault "a#b" = (Except.error "failed to join", false) :=
  ⟨rfl, by decide, rfl, by decide, rfl⟩

/-- Claim C7 amended: JoinChannel removes the first occurrence of the channel marker anywhere in the name (which coincides with stripping a leading marker whenever the marker is leading), resolves the remainder to an identifier, and returns the generic failure either when the name resolves to no identifier, in which case the backend join call is never made, or when the backend join call errors; otherwise it succeeds. -/
theorem JoinChannel_behaviour (st : MMState) (be : Backend) (channel : String) :
    ((GetChannelId st be (stripHash channel)).1 = "" →
       JoinChannel st be channel = (Except.error "failed to join", false))
    ∧ ((GetChannelId st be (stripHash channel)).1 ≠ "" →
        (be.joinResp (GetChannelId st be (stripHash channel)).1 = none →
           JoinChannel st be channel = (Except.ok (), true))
        ∧ (∀ e, be.joinResp (GetChannelId st be (stripHash channel)).1 = some e →
           JoinChannel st be channel = (Except.error "failed to join", true)))
    ∧ (∀ rest : List Char, channel.data = '#' :: rest → stripHash channel = String.mk rest) := by
  refine ⟨?_, ?_, ?_⟩
  · intro h0
    simp [JoinChannel, h0]
  · intro hne
    constructor
    · intro hok
      simp [JoinChannel, hne, hok]
    · intro e he
      simp [JoinChannel, hne, he]
  · intro rest hrest
    simp [stripHash, hrest, removeFirstHash]

theorem JoinChannel_behaviour_witness :
    (GetChannelId stC7 beDefault (stripHash "#general")).1 = "idG"
    ∧ JoinChannel stC7 beDefault "#general" = (Except.ok (), true) :=
  ⟨by decide,
   ((JoinChannel_behaviour stC7 beDefault "#general").2.1 (by decide)).1 (by decide)⟩

end Matterclient
